import Mathlib

/-!
Verification development for the infini-prompt template resolution engine
(`src/infini_prompt/prompt_generator.py`). The Python source is shallowly
embedded: strings are Lean strings, dicts are insertion-ordered association
lists, exceptions are an `Except` error monad, the `random` module is a
deterministic stream drawn from the seed, and the unbounded recursion of the
resolver is made total with an explicit fuel parameter (`Err.fuel` marks a
computation that exceeded the bound; the source itself has no such bound).
-/

namespace InfiniPrompt

/-- Python exception model: `promptError` is the library's `PromptError`
class, `exception` is any other Python exception (the plain `Exception`
raised by `ensure_template_dict`, `IndexError`, ...), and `fuel` marks a
computation that exhausted the fuel of the model, that is, a recursion the
source performs without bound. -/
inductive Err where
  | promptError (msg : String)
  | exception (msg : String)
  | fuel
  deriving Repr, DecidableEq

deriving instance DecidableEq for Except

/-- Characters removed by Python `str.strip()` (the ASCII whitespace set). -/
def pySpace (c : Char) : Bool :=
  c = ' ' || c = '\t' || c = '\n' || c = '\r' || c = '\x0b' || c = '\x0c'

/-- Python `str.strip()`. -/
def pyStrip (s : String) : String :=
  ⟨((s.data.dropWhile pySpace).reverse.dropWhile pySpace).reverse⟩

/-- Whether `sub` occurs as a contiguous run in the character list. -/
def listHasSub (sub : List Char) : List Char → Bool
  | [] => sub.isEmpty
  | c :: t => sub.isPrefixOf (c :: t) || listHasSub sub t

/-- Python `sub in s`. -/
def pyContains (s sub : String) : Bool := listHasSub sub.data s.data

/-- Python `s.startswith(pre)`. -/
def pyStartsWith (s pre : String) : Bool := pre.data.isPrefixOf s.data

/-- Python `s.endswith(suf)`. -/
def pyEndsWith (s suf : String) : Bool := suf.data.isSuffixOf s.data

/-- Python `s[:-n]` for `n` at most the length. -/
def strDropRight (s : String) (n : Nat) : String :=
  ⟨s.data.take (s.data.length - n)⟩

/-- Helper for `pySplitChar`: split on a one-character separator, keeping
empty pieces, like Python `str.split(sep)`. -/
def splitOnCharAux (sep : Char) : List Char → List Char → List String
  | [], acc => [⟨acc.reverse⟩]
  | c :: t, acc =>
    if c = sep then ⟨acc.reverse⟩ :: splitOnCharAux sep t []
    else splitOnCharAux sep t (c :: acc)

/-- Python `s.split(sep)` for a one-character separator. -/
def pySplitChar (s : String) (sep : Char) : List String :=
  splitOnCharAux sep s.data []

/-- Helper locating the first occurrence of a separator character. -/
def partitionCharAux (sep : Char) : List Char → Option (List Char × List Char)
  | [] => none
  | c :: t =>
    if c = sep then some ([], t)
    else (partitionCharAux sep t).map (fun p => (c :: p.1, p.2))

/-- Python `s.partition(sep)` as (before, after); when the separator is
absent Python returns `(s, "", "")`, here `(s, "")`. -/
def pyPartitionChar (s : String) (sep : Char) : String × String :=
  match partitionCharAux sep s.data with
  | some (a, b) => (⟨a⟩, ⟨b⟩)
  | none => (s, "")

/-- Python `s.rpartition(sep)` as (before, after); when the separator is
absent Python returns `("", "", s)`, here `("", s)`. -/
def pyRPartitionChar (s : String) (sep : Char) : String × String :=
  match partitionCharAux sep s.data.reverse with
  | some (a, b) => (⟨b.reverse⟩, ⟨a.reverse⟩)
  | none => ("", s)

/-- Helper for `pyReplaceAll`: replace every occurrence, left to right,
non-overlapping; an empty pattern is the identity (the source never
replaces an empty pattern). The extra `Nat` makes the recursion structural:
every step drops at least one character, so running it with the length of
the string never hits the `0` case on a non-empty rest. -/
def replaceAllAux (old new : List Char) : Nat → List Char → List Char
  | 0, s => s
  | _ + 1, [] => []
  | f + 1, c :: t =>
    if old ≠ [] ∧ old.isPrefixOf (c :: t) then
      new ++ replaceAllAux old new f (t.drop (old.length - 1))
    else
      c :: replaceAllAux old new f t

/-- Python `s.replace(old, new)`. -/
def pyReplaceAll (s old new : String) : String :=
  ⟨replaceAllAux old.data new.data s.data.length s.data⟩

/-- Helper for `pyReplaceFirst`: replace the first occurrence only. -/
def replaceFirstAux (old new : List Char) : List Char → List Char
  | [] => []
  | c :: t =>
    if old ≠ [] ∧ old.isPrefixOf (c :: t) then new ++ (c :: t).drop old.length
    else c :: replaceFirstAux old new t

/-- Python `s.replace(old, new, 1)`. -/
def pyReplaceFirst (s old new : String) : String :=
  ⟨replaceFirstAux old.data new.data s.data⟩

/-- Python `s.isdigit()` on the ASCII fragment. -/
def pyIsDigit (s : String) : Bool := ¬ s.data.isEmpty && s.data.all Char.isDigit

/-- Value of a string of decimal digits. -/
def digitsToNat (l : List Char) : Nat :=
  l.foldl (fun a c => a * 10 + (c.toNat - 48)) 0

/-- Model of Python `float(text)` on the decimal fragment the templates use:
optional surrounding whitespace, an optional sign, decimal digits with at
most one point and at least one digit. Exponents, specials and underscores
are not modelled; values are kept exact as rationals. -/
def pyFloat (s : String) : Option ℚ :=
  let cs := (pyStrip s).data
  let sgn : Bool × List Char :=
    match cs with
    | '+' :: t => (false, t)
    | '-' :: t => (true, t)
    | t => (false, t)
  let ip := sgn.2.takeWhile Char.isDigit
  let rest := sgn.2.dropWhile Char.isDigit
  let mag : Option ℚ :=
    match rest with
    | [] => if ip.isEmpty then none else some (digitsToNat ip)
    | '.' :: fp =>
      if fp.all Char.isDigit ∧ (¬ ip.isEmpty ∨ ¬ fp.isEmpty) then
        some ((digitsToNat ip : ℚ) + (digitsToNat fp : ℚ) / ((10 : ℚ) ^ fp.length))
      else none
    | _ => none
  mag.map (fun q => if sgn.1 then -q else q)

/-- Deterministic model of the `random` module: the seed determines an
infinite stream of naturals, one number consumed per primitive call. Only
the determinism of the stream in the seed is modelled, not the Mersenne
Twister values themselves. -/
structure Rand where
  stream : Nat → Nat
  idx : Nat

/-- Model of `random.seed(seed)`: a concrete stream fully determined by the
seed. -/
def mkRand (seed : Int) : Rand :=
  ⟨fun n => (seed.natAbs * 31 + n * 17 + 11) % 101, 0⟩

/-- Draw the next raw number from the stream. -/
def randStep (r : Rand) : Nat × Rand :=
  (r.stream r.idx, { r with idx := r.idx + 1 })

/-- Model of `random.choice(l)`: a uniform index draw; an empty sequence
raises `IndexError`, which is not a `PromptError`. -/
def pyChoice (l : List String) (r : Rand) : Except Err (String × Rand) :=
  if l.isEmpty then .error (.exception "Cannot choose from empty sequence")
  else
    let (k, r') := randStep r
    .ok (l.getD (k % l.length) "", r')

/-- Model of `random.randint(lo, hi)` (both ends inclusive). -/
def pyRandint (lo hi : Nat) (r : Rand) : Nat × Rand :=
  let (k, r') := randStep r
  (lo + k % (hi - lo + 1), r')

/-- Insertion-ordered association list modelling a Python dict. -/
abbrev Assoc (α : Type) := List (String × α)

/-- Dict lookup: first binding of the key. -/
def assocFind {α : Type} : Assoc α → String → Option α
  | [], _ => none
  | (k', v) :: t, k => if k' = k then some v else assocFind t k

/-- Dict assignment: update the existing binding in place, else append. -/
def assocSet {α : Type} : Assoc α → String → α → Assoc α
  | [], k, v => [(k, v)]
  | (k', v') :: t, k, v =>
    if k' = k then (k', v) :: t else (k', v') :: assocSet t k v

/-- Dict `get` with a default. -/
def assocGetD {α : Type} (m : Assoc α) (k : String) (d : α) : α :=
  (assocFind m k).getD d

/-- Python `k in dict`. -/
def assocHas {α : Type} (m : Assoc α) (k : String) : Bool :=
  (assocFind m k).isSome

/-- A data-map value: the Python values template data uses are strings and
lists of strings (other shapes raise errors before resolution and are not
representable in the model). -/
inductive Value where
  | str (v : String)
  | list (vs : List String)
  deriving Repr, DecidableEq

/-- Resolution state: the `templates` dict of the source with its `data`,
`static` and `usage` entries. The source creates `static` and `usage`
lazily; they are modelled as always present, empty until first written,
which is observationally the same. -/
structure St where
  data : Assoc Value
  static : Assoc String
  usage : Assoc (List String)
  deriving Repr, DecidableEq

/-- The ESCAPE_MAPPINGS table of the source, in its insertion order. -/
def ESCAPE_MAPPINGS : List (String × String) :=
  [("|", "&pipe;"), ("\x7b", "&lbrace;"), ("\x7d", "&rbrace;"),
   (",", "&comma;"), ("&", "&amp;")]

/-- escape_special_characters from the source: sequentially replace each
mapped character by its escape sequence, in table order. -/
def escape_special_characters (text : String) : String :=
  ESCAPE_MAPPINGS.foldl (fun t p => pyReplaceAll t p.1 p.2) text

/-- unescape_special_characters from the source: sequentially replace each
escape sequence by its character, in table order. -/
def unescape_special_characters (text : String) : String :=
  ESCAPE_MAPPINGS.foldl (fun t p => pyReplaceAll t p.2 p.1) text

/-- Python slice `prompt[a:b]` over a character list (with the clamping the
slice operator performs). -/
def sliceChars (cs : List Char) (a b : Nat) : String :=
  ⟨(cs.drop a).take (b - a)⟩

/-- Helper for `validate_bracets`: walk the string with the index stack of
unmatched opening brackets (head = most recently opened). -/
def validateBracetsAux (cs : List Char) : List Char → Nat → List Nat → Except Err Unit
  | [], _, stack =>
    match stack with
    | [] => .ok ()
    | idx :: _ =>
      .error (.promptError ("Unmatched opening bracket '\x7b' in prompt near: '" ++
        sliceChars cs (idx - 10) (idx + 10) ++ "'"))
  | c :: t, i, stack =>
    if c = '\x7b' then validateBracetsAux cs t (i + 1) (i :: stack)
    else if c = '\x7d' then
      match stack with
      | [] =>
        .error (.promptError ("Unmatched closing bracket '\x7d' in prompt near: '" ++
          sliceChars cs (i - 10) (i + 10) ++ "'"))
      | _ :: rest => validateBracetsAux cs t (i + 1) rest
    else validateBracetsAux cs t (i + 1) stack

/-- validate_bracets from the source: depth-counted balance check with the
source's context messages. -/
def validate_bracets (prompt : String) : Except Err Unit :=
  validateBracetsAux prompt.data prompt.data 0 []

/-- Helper for `eat_next_bracets`: scan after the first opening bracket with
the current depth, accumulating the span's content. -/
def eatScan : List Char → Nat → List Char → String
  | [], _, _ => ""
  | c :: t, depth, acc =>
    if c = '\x7b' then eatScan t (depth + 1) (acc ++ [c])
    else if c = '\x7d' then
      if depth = 1 then ⟨acc⟩ else eatScan t (depth - 1) (acc ++ [c])
    else eatScan t depth (acc ++ [c])

/-- eat_next_bracets from the source: the content between the first `{` and
its matching `}`, or the empty string when there is no `{` or it is never
matched. -/
def eat_next_bracets (prompt : String) : String :=
  match prompt.data.dropWhile (fun c => c ≠ '\x7b') with
  | [] => ""
  | _ :: t => eatScan t 1 []

/-- Operator alias tables of the source. -/
def EQUAL_OPERATORS : List String := ["==", "=", "equals", "eq"]

def INEQUAL_OPERATORS : List String := ["!=", "not_equals", "neq", "<>"]

def EQUALITY_OPERATORS : List String := EQUAL_OPERATORS ++ INEQUAL_OPERATORS

def QUANTITATIVE_OPERATORS : List String :=
  [">", "gt"] ++ ["<", "lt"] ++ [">=", "gte"] ++ ["<=", "lte"]

def ONE_OF_OPERATORS : List String :=
  ["one_of", "choice", "select", "any", "any_of", "pick_one"]

def STORE_OPERATORS : List String := ["set", "store", ":="]

def REPEAT_OPERATORS : List String := ["repeat", "x"]

def MAYBE_OPERATORS : List String := ["maybe", "?"]

def IN_OPERATOR : List String := ["in", "not_in"]

def HAS_OPERATOR : List String := ["has", "not_has"]

def TRACK_OPERATORS : List String := ["track", "tk"]

def OPTIONAL_OPERATORS : List String := ["optional", "opt"]

def IGNORE_OPERATORS : List String := ["ignore", "ign", "empty"]

def COMMENT_OPERATORS : List String := ["comment", "//"]

/-- operator_maybe from the source: with probability `chance`/100 return the
stripped text, else the empty string. -/
def operator_maybe (text : String) (chance : Nat) (r : Rand) : String × Rand :=
  let text := pyStrip text
  let (k, r') := pyRandint 1 100 r
  if k ≤ chance then (text, r') else ("", r')

/-- Shorthand for the result type of the resolver functions: the produced
string together with the updated state and random stream. -/
abbrev RRes := Except Err (String × St × Rand)

mutual

/-- select_normal from the source. -/
def select_normal (fuel : Nat) (name : String) (st : St) (r : Rand) : RRes :=
  match fuel with
  | 0 => .error .fuel
  | fuel + 1 =>
    if pyContains name "\x7b" then process_prompt fuel name st r false
    else
      match assocFind st.data name with
      | none =>
        .error (.promptError ("Selection key '" ++ name ++ "' not found in state data."))
      | some (.str v) =>
        if pyContains v "\x7b" then process_prompt fuel v st r false
        else .ok (v, st, r)
      | some (.list options) =>
        if options.isEmpty then
          .error (.promptError ("Selection key '" ++ name ++ "' must be a non-empty list."))
        else do
          let (choice, r) ← pyChoice options r
          if pyContains choice "\x7b" then process_prompt fuel choice st r false
          else .ok (choice, st, r)
termination_by structural fuel

/-- select_exclusive from the source. -/
def select_exclusive (fuel : Nat) (name : String) (st : St) (r : Rand) (pfx : String) : RRes :=
  match fuel with
  | 0 => .error .fuel
  | fuel + 1 =>
    match assocFind st.data name with
    | none =>
      .error (.promptError ("Exclusive selection key '" ++ name ++ "' not found in state data."))
    | some (.str _) => select_normal fuel name st r
    | some (.list options) =>
      if options.isEmpty then
        .error (.promptError ("Exclusive selection key '" ++ name ++ "' must be a non-empty list."))
      else
        let namePfx := pfx ++ name
        let used := assocGetD st.usage namePfx []
        let filtered := options.filter (fun o => ¬ used.contains o)
        let stPool : St × List String :=
          if filtered.isEmpty then
            ({ st with usage := assocSet st.usage namePfx [] }, options)
          else (st, filtered)
        do
          let (choice, r) ← pyChoice stPool.2 r
          let st := { stPool.1 with
            usage := assocSet stPool.1.usage namePfx
              (assocGetD stPool.1.usage namePfx [] ++ [choice]) }
          if pyContains choice "\x7b" then process_prompt fuel choice st r false
          else .ok (choice, st, r)
termination_by structural fuel

/-- select_static from the source. -/
def select_static (fuel : Nat) (name : String) (st : St) (r : Rand) (pfx : String) : RRes :=
  match fuel with
  | 0 => .error .fuel
  | fuel + 1 =>
    let namePfx := pfx ++ name
    match assocFind st.static namePfx with
    | some v => .ok (v, st, r)
    | none => do
      let (result, st, r) ← select_normal fuel name st r
      .ok (result, { st with static := assocSet st.static namePfx result }, r)
termination_by structural fuel

/-- The list comprehension of selector_except that resolves each option
that contains a bracket, threading the state. -/
def resolveEach (fuel : Nat) (l : List String) (st : St) (r : Rand) :
    Except Err (List String × St × Rand) :=
  match fuel with
  | 0 => .error .fuel
  | fuel + 1 =>
    match l with
    | [] => .ok ([], st, r)
    | o :: t => do
      let (o', st, r) ←
        if pyContains o "\x7b" then process_prompt fuel o st r false
        else Except.ok (o, st, r)
      let (t', st, r) ← resolveEach fuel t st r
      .ok (o' :: t', st, r)
termination_by structural fuel

/-- selector_except from the source. -/
def selector_except (fuel : Nat) (key excludeKey : String) (st : St) (dflt : String)
    (r : Rand) : RRes :=
  match fuel with
  | 0 => .error .fuel
  | fuel + 1 =>
    let key := pyStrip key
    let excludeKey := pyStrip excludeKey
    if ¬ assocHas st.data key then
      .error (.promptError ("Selection key '" ++ key ++ "' not found in state data."))
    else if ¬ pyContains excludeKey "," ∧ ¬ assocHas st.data excludeKey then
      .error (.promptError ("Exclude selection key '" ++ excludeKey ++ "' not found in state data."))
    else
      let options :=
        match assocFind st.data key with
        | some (.str v) => [v]
        | some (.list vs) => vs
        | none => []
      if options.isEmpty then
        .error (.promptError ("Selection key '" ++ key ++ "' must be a non-empty list."))
      else do
        let (options, st, r) ← resolveEach fuel options st r
        let optionsExclude :=
          if pyContains excludeKey "," then pySplitChar excludeKey ','
          else
            match assocFind st.data excludeKey with
            | some (.str v) => [v]
            | some (.list vs) => vs
            | none => []
        let (optionsExclude, st, r) ←
          resolveEach fuel (optionsExclude.filter (fun o => ¬ (pyStrip o).isEmpty)) st r
        let filtered := options.filter (fun o => ¬ optionsExclude.contains o)
        if filtered.isEmpty then
          if pyContains dflt "\x7b" then process_prompt fuel dflt st r false
          else .ok (dflt, st, r)
        else do
          let (choice, r) ← pyChoice filtered r
          .ok (choice, st, r)
termination_by structural fuel

/-- operator_equals from the source. -/
def operator_equals (fuel : Nat) (key compareValue : String) (st : St)
    (vTrue vFalse : String) (negative : Bool) (r : Rand) : RRes :=
  match fuel with
  | 0 => .error .fuel
  | fuel + 1 => do
    let key := pyStrip key
    let compareValue := pyStrip compareValue
    let (keyValue, st, r) ← select_normal fuel key st r
    if (keyValue == compareValue) ≠ negative then .ok (vTrue, st, r)
    else .ok (vFalse, st, r)
termination_by structural fuel

/-- operator_greater from the source, with its `negative` and `exact`
flags exactly as the dispatcher sets them. -/
def operator_greater (fuel : Nat) (key compareValue : String) (st : St)
    (vTrue vFalse : String) (negative exact : Bool) (r : Rand) : RRes :=
  match fuel with
  | 0 => .error .fuel
  | fuel + 1 => do
    let key := pyStrip key
    let compareValue := pyStrip compareValue
    let (keyValue, st, r) ← select_normal fuel key st r
    match pyFloat keyValue, pyFloat compareValue with
    | some leftN, some rightN =>
      let cmp := if exact then decide (leftN ≥ rightN) else decide (leftN > rightN)
      let cmp := if negative then ! cmp else cmp
      if cmp then .ok (vTrue, st, r) else .ok (vFalse, st, r)
    | _, _ =>
      .error (.promptError ("Cannot compare non-numeric values: '" ++ keyValue ++
        "' and '" ++ compareValue ++ "'"))
termination_by structural fuel

/-- operator_in from the source. -/
def operator_in (fuel : Nat) (key listValue : String) (st : St)
    (vTrue vFalse : String) (negative : Bool) (r : Rand) : RRes :=
  match fuel with
  | 0 => .error .fuel
  | fuel + 1 => do
    let key := pyStrip key
    let listValue := pyStrip listValue
    let (keyValue, st, r) ← select_normal fuel key st r
    let listValues := (pySplitChar listValue ',').map pyStrip
    if (listValues.contains keyValue) ≠ negative then .ok (vTrue, st, r)
    else .ok (vFalse, st, r)
termination_by structural fuel

/-- operator_has from the source. -/
def operator_has (fuel : Nat) (key substrings : String) (st : St)
    (vTrue vFalse : String) (negative : Bool) (r : Rand) : RRes :=
  match fuel with
  | 0 => .error .fuel
  | fuel + 1 => do
    let key := pyStrip key
    let substrings := pyStrip substrings
    let (keyValue, st, r) ← select_normal fuel key st r
    let hasAll := ((pySplitChar substrings ',').map pyStrip).all
      (fun sb => pyContains keyValue sb)
    if hasAll ≠ negative then .ok (vTrue, st, r) else .ok (vFalse, st, r)
termination_by structural fuel

/-- operator_case from the source. -/
def operator_case (fuel : Nat) (text : String) (st : St) (pfx dflt : String)
    (caseValues : List String) (r : Rand) : RRes :=
  match fuel with
  | 0 => .error .fuel
  | fuel + 1 => do
    let (value, st, r) ← select_normal fuel text st r
    match caseValues.find? (fun v => pyContains value v) with
    | some v => .ok (pfx ++ v, st, r)
    | none => .ok (dflt, st, r)
termination_by structural fuel

/-- operator_one_of from the source. -/
def operator_one_of (fuel : Nat) (text : String) (st : St) (r : Rand) : RRes :=
  match fuel with
  | 0 => .error .fuel
  | fuel + 1 =>
    let options := (pySplitChar text '|').map pyStrip
    if options.isEmpty then .ok ("", st, r)
    else do
      let (option, r) ← pyChoice options r
      if pyContains option "\x7b" then process_prompt fuel option st r false
      else .ok (option, st, r)
termination_by structural fuel

/-- operator_repeat from the source: the text is re-resolved independently
on each iteration; a count above 256 is rejected. -/
def operator_repeat (fuel : Nat) (text : String) (count : Nat) (st : St) (r : Rand) : RRes :=
  match fuel with
  | 0 => .error .fuel
  | fuel + 1 =>
    if count > 256 then
      .error (.promptError "Repeat operator count exceeds maximum of 256.")
    else
      match count with
      | 0 => .ok ("", st, r)
      | c + 1 => do
        let (part, st, r) ←
          if pyContains text "\x7b" then process_prompt fuel text st r false
          else Except.ok (text, st, r)
        let (rest, st, r) ← operator_repeat fuel text c st r
        .ok (part ++ rest, st, r)
termination_by structural fuel

/-- operator_store from the source: resolve the text and assign it into the
statics under prefix+key (overwriting any present value), returning empty. -/
def operator_store (fuel : Nat) (key text : String) (st : St) (r : Rand) (pfx : String) : RRes :=
  match fuel with
  | 0 => .error .fuel
  | fuel + 1 => do
    let (value, st, r) ←
      if pyContains text "\x7b" then process_prompt fuel text st r false
      else Except.ok (text, st, r)
    .ok ("", { st with static := assocSet st.static (pfx ++ key) value }, r)
termination_by structural fuel

/-- operator_track from the source. -/
def operator_track (fuel : Nat) (text trackName : String) (st : St) (r : Rand) : RRes :=
  match fuel with
  | 0 => .error .fuel
  | fuel + 1 => do
    let (text, st, r) ←
      if pyContains text "\x7b" then process_prompt fuel text st r false
      else Except.ok (text, st, r)
    .ok (text, { st with data := assocSet st.data ("track_" ++ trackName) (.str text) }, r)
termination_by structural fuel

/-- optional_operator from the source. -/
def optional_operator (fuel : Nat) (key dflt : String) (st : St) (r : Rand) : RRes :=
  match fuel with
  | 0 => .error .fuel
  | fuel + 1 =>
    if ¬ assocHas st.data key then
      if pyContains dflt "\x7b" then process_prompt fuel dflt st r false
      else .ok (dflt, st, r)
    else select_normal fuel key st r
termination_by structural fuel

/-- operator_error from the source. -/
def operator_error (fuel : Nat) (text compareValue : String) (st : St) (r : Rand) : RRes :=
  match fuel with
  | 0 => .error .fuel
  | fuel + 1 => do
    let key := pyStrip text
    let compareValue := pyStrip compareValue
    let (keyValue, st, r) ← select_normal fuel key st r
    if keyValue = compareValue then
      .error (.promptError ("Error operator triggered: " ++ keyValue ++ " == " ++ compareValue))
    else .ok ("", st, r)
termination_by structural fuel

/-- operator_ignore from the source: resolve for side effects only. -/
def operator_ignore (fuel : Nat) (text : String) (st : St) (r : Rand) : RRes :=
  match fuel with
  | 0 => .error .fuel
  | fuel + 1 => do
    let (_, st, r) ←
      if pyContains text "\x7b" then process_prompt fuel text st r false
      else Except.ok ("", st, r)
    .ok ("", st, r)
termination_by structural fuel

/-- The loop of the coalesce operator `!` over the remaining parts. -/
def coalesceLoop (fuel : Nat) (parts : List String) (st : St) (r : Rand) : RRes :=
  match fuel with
  | 0 => .error .fuel
  | fuel + 1 =>
    match parts with
    | [] => .ok ("", st, r)
    | p :: t => do
      let (v, st, r) ← process_prompt fuel (pyStrip p) st r false
      if ¬ v.isEmpty then .ok (v, st, r) else coalesceLoop fuel t st r
termination_by structural fuel

/-- resolve_operator from the source: the dispatcher over the content of one
bracket expression. -/
def resolve_operator (fuel : Nat) (text : String) (st : St) (r : Rand) : RRes :=
  match fuel with
  | 0 => .error .fuel
  | fuel + 1 =>
    if ¬ pyContains text ":" then
      if pyContains text "|" then operator_one_of fuel text st r
      else select_normal fuel (pyStrip text) st r
    else
      let opArg := pyPartitionChar text ':'
      let op := opArg.1
      let argument := opArg.2
      if ONE_OF_OPERATORS.contains op then operator_one_of fuel argument st r
      else if pyEndsWith op "@" then
        select_exclusive fuel (pyStrip argument) st r (strDropRight op 1)
      else if pyEndsWith op "$" then
        select_static fuel (pyStrip argument) st r (strDropRight op 1)
      else if op = "#" then
        if pyContains argument "\x7b" ∨ pyContains argument "\x7d" then
          .error (.promptError ("Literal operator '#' cannot contain '\x7b' or '\x7d' characters: '"
            ++ argument ++ "'"))
        else .ok (argument, st, r)
      else if op = "error" then
        let parts := pySplitChar argument '|'
        if parts.length < 2 then
          .error (.promptError ("Error operator requires key|value format: '" ++ argument ++ "'"))
        else
          operator_error fuel (pyStrip (parts.getD 0 "")) (pyStrip (parts.getD 1 "")) st r
      else if EQUALITY_OPERATORS.contains op then
        let negative := INEQUAL_OPERATORS.contains op
        let parts := pySplitChar argument '|'
        if parts.length < 2 then
          .error (.promptError ("Equality operator requires at least key|value format: '"
            ++ argument ++ "'"))
        else
          operator_equals fuel (pyStrip (parts.getD 0 "")) (pyStrip (parts.getD 1 "")) st
            (parts.getD 2 "") (parts.getD 3 "") negative r
      else if QUANTITATIVE_OPERATORS.contains op then
        let negative := (["<", "lt", "<=", "lte"] : List String).contains op
        let exact := ([">=", "gte", "<=", "lte"] : List String).contains op
        let parts := pySplitChar argument '|'
        if parts.length < 2 then
          .error (.promptError ("Quantitative operator requires at least key|value format: '"
            ++ argument ++ "'"))
        else
          operator_greater fuel (pyStrip (parts.getD 0 "")) (pyStrip (parts.getD 1 "")) st
            (parts.getD 2 "") (parts.getD 3 "") negative exact r
      else if IN_OPERATOR.contains op then
        let negative := op = "not_in"
        let parts := pySplitChar argument '|'
        if parts.length < 2 then
          .error (.promptError ("In operator requires at least key|list format: '"
            ++ argument ++ "'"))
        else
          operator_in fuel (pyStrip (parts.getD 0 "")) (pyStrip (parts.getD 1 "")) st
            (parts.getD 2 "") (parts.getD 3 "") negative r
      else if HAS_OPERATOR.contains op then
        let negative := op = "not_has"
        let parts := pySplitChar argument '|'
        if parts.length < 2 then
          .error (.promptError ("Has operator requires at least key|substrings format: '"
            ++ argument ++ "'"))
        else
          operator_has fuel (pyStrip (parts.getD 0 "")) (pyStrip (parts.getD 1 "")) st
            (parts.getD 2 "") (parts.getD 3 "") negative r
      else if op = "case" then
        let triple : String × String × List String :=
          if pyContains argument "|" then
            let parts := pySplitChar argument '|'
            ((if parts.length ≥ 2 then parts.getD 1 "" else ""),
             (if parts.length ≥ 3 then parts.getD 2 "" else ""),
             (if parts.length ≥ 4 then (pySplitChar (parts.getD 3 "") ',').map pyStrip else []))
          else ("", "", [])
        operator_case fuel (pyPartitionChar argument '|').1 st triple.1 triple.2.1 triple.2.2 r
      else if op = "*" then
        select_normal fuel (pyStrip argument) st r
      else if op = "!" then
        let parts := pySplitChar argument '|'
        if parts.length < 2 then
          .error (.promptError ("Coalesce operator requires at least one key|value format: '"
            ++ argument ++ "'"))
        else do
          let (keyValue, st, r) ← process_prompt fuel (pyStrip (parts.getD 0 "")) st r false
          if ¬ keyValue.isEmpty then .ok (keyValue, st, r)
          else coalesceLoop fuel (parts.drop 1) st r
      else if pyIsDigit op then
        let index := digitsToNat op.data
        let parts := pySplitChar argument '|'
        let key := pyStrip (parts.getD 0 "")
        let dfltValue := if parts.length > 1 then parts.getD 1 "" else ""
        match assocFind st.data key with
        | none =>
          .error (.promptError ("Index selection key '" ++ key ++ "' not found in state data."))
        | some v =>
          let options := match v with | .str s => [s] | .list vs => vs
          if index < options.length then
            let choice := options.getD index ""
            if pyContains choice "\x7b" then process_prompt fuel choice st r false
            else .ok (choice, st, r)
          else .ok (dfltValue, st, r)
      else if op = "^" then
        let parts := pySplitChar argument '|'
        if parts.length < 2 then
          .error (.promptError ("Except operator requires at least key|exclude_value format: '"
            ++ argument ++ "'"))
        else
          selector_except fuel (pyStrip (parts.getD 0 "")) (pyStrip (parts.getD 1 "")) st
            (if parts.length > 2 then parts.getD 2 "" else "") r
      else if MAYBE_OPERATORS.contains op ∨ pyEndsWith op "?" then
        let argument := pyStrip argument
        if pyStartsWith argument "\x7b" then do
          let (argument, st, r) ← process_prompt fuel argument st r false
          let vr := operator_maybe ("\x7b#:" ++ argument ++ "\x7d") 50 r
          .ok (vr.1, st, vr.2)
        else do
          let (chance, keyPart) ←
            if pyContains argument "|" then
              let parts := pySplitChar argument '|'
              let chancePart := pyStrip (parts.getD 0 "")
              let keyPart := pyStrip (parts.getD 1 "")
              if pyIsDigit chancePart then Except.ok (digitsToNat chancePart.data, keyPart)
              else Except.error (Err.promptError ("Chance value must be an integer: '"
                ++ chancePart ++ "'"))
            else if pyIsDigit (strDropRight op 1) then
              Except.ok (digitsToNat (strDropRight op 1).data, argument)
            else Except.ok (50, argument)
          let (keyPart, st, r) ←
            if pyContains keyPart "\x7b" then process_prompt fuel keyPart st r false
            else Except.ok (keyPart, st, r)
          let vr := operator_maybe keyPart chance r
          .ok (vr.1, st, vr.2)
      else if REPEAT_OPERATORS.contains op then
        let parts := pySplitChar argument '|'
        if parts.length < 2 then
          .error (.promptError ("Repeat operator requires count|text format: '" ++ argument ++ "'"))
        else
          let countPart := pyStrip (parts.getD 0 "")
          let textPart := parts.getD 1 ""
          if ¬ pyIsDigit countPart then
            .error (.promptError ("Repeat count must be an integer: '" ++ countPart ++ "'"))
          else operator_repeat fuel textPart (digitsToNat countPart.data) st r
      else if STORE_OPERATORS.contains op ∨
          STORE_OPERATORS.any (fun sop => pyEndsWith op ("," ++ sop)) then
        let pfx := if pyContains op "," then (pyRPartitionChar op ',').1 else ""
        let parts := pySplitChar argument '|'
        if parts.length < 2 then
          .error (.promptError ("Store operator requires key|text format: '" ++ argument ++ "'"))
        else operator_store fuel (pyStrip (parts.getD 0 "")) (parts.getD 1 "") st r pfx
      else if TRACK_OPERATORS.contains op then
        let parts := pySplitChar argument '|'
        if parts.length < 2 then
          .error (.promptError ("Track operator requires name|text format: '" ++ argument ++ "'"))
        else operator_track fuel (parts.getD 1 "") (pyStrip (parts.getD 0 "")) st r
      else if OPTIONAL_OPERATORS.contains op then
        let parts := pySplitChar argument '|'
        if parts.length < 2 then
          .error (.promptError ("Optional operator requires key|default format: '" ++ argument ++ "'"))
        else optional_operator fuel (pyStrip (parts.getD 0 "")) (parts.getD 1 "") st r
      else if IGNORE_OPERATORS.contains op then operator_ignore fuel argument st r
      else if COMMENT_OPERATORS.contains op then .ok ("", st, r)
      else .error (.promptError ("Unknown operator '" ++ op ++ "' in prompt."))
termination_by structural fuel

/-- The while loop of process_prompt: extract the first span, resolve its
content as inside-bracket, substitute the first literal occurrence, repeat
while an extractable span remains. -/
def processLoop (fuel : Nat) (result : String) (st : St) (r : Rand) : RRes :=
  match fuel with
  | 0 => .error .fuel
  | fuel + 1 =>
    if pyContains result "\x7b" then
      let inner := eat_next_bracets result
      if inner.isEmpty then .ok (result, st, r)
      else do
        let (processed, st, r) ← process_prompt fuel inner st r true
        processLoop fuel (pyReplaceFirst result ("\x7b" ++ inner ++ "\x7d") processed) st r
    else .ok (result, st, r)
termination_by structural fuel

/-- process_prompt from the source. -/
def process_prompt (fuel : Nat) (prompt : String) (st : St) (r : Rand)
    (insideBracets : Bool) : RRes :=
  match fuel with
  | 0 => .error .fuel
  | fuel + 1 =>
    if insideBracets ∧ (pyStartsWith prompt "comment:" ∨ pyStartsWith prompt "//:") then
      .ok ("", st, r)
    else do
      let (result, st, r) ← processLoop fuel prompt st r
      if insideBracets then do
        let (v, st, r) ← resolve_operator fuel result st r
        .ok (pyStrip v, st, r)
      else .ok (pyStrip result, st, r)
termination_by structural fuel

end

/-- One maximal whitespace run becomes a single space: the
`re.sub(r'\s+', ' ', prompt)` step of postprocess_prompt. The flag records
whether the previous character was whitespace. -/
def collapseWsAux : List Char → Bool → List Char
  | [], _ => []
  | c :: t, prevSp =>
    if pySpace c then
      if prevSp then collapseWsAux t true else ' ' :: collapseWsAux t true
    else c :: collapseWsAux t false

/-- The punctuation class of postprocess_prompt's regexes. -/
def PUNCT : List Char := ['.', '!', '?', ',', ';', ':']

/-- The `re.sub(r'\s+([.!?,;:])', r'\1', prompt)` step: drop a whitespace
run that immediately precedes a punctuation character. `pending` buffers the
whitespace run seen so far, in reverse. -/
def rmSpaceBeforePunctAux : List Char → List Char → List Char
  | pending, [] => pending.reverse
  | pending, c :: t =>
    if pySpace c then rmSpaceBeforePunctAux (c :: pending) t
    else if PUNCT.contains c ∧ pending ≠ [] then c :: rmSpaceBeforePunctAux [] t
    else pending.reverse ++ c :: rmSpaceBeforePunctAux [] t

/-- The `re.sub(r',\s*', ', ', prompt)` step: every comma becomes a comma
and one space, consuming the whitespace that followed it. The flag records
that we are skipping the whitespace after a comma. -/
def commaSpaceAux : Bool → List Char → List Char
  | _, [] => []
  | afterComma, c :: t =>
    if afterComma ∧ pySpace c then commaSpaceAux true t
    else if c = ',' then ',' :: ' ' :: commaSpaceAux true t
    else c :: commaSpaceAux false t

/-- postprocess_prompt from the source, for templates without a declared
`postprocess` regex list (the modelled template shape has none, so the
source's `if "postprocess" in template` branch is not taken). -/
def postprocess_prompt (prompt : String) : String :=
  let p : String := ⟨collapseWsAux prompt.data false⟩
  let p := pyStrip p
  let p := pyReplaceAll p ". ." "."
  let p := pyReplaceAll p ", ," ","
  let p : String := ⟨rmSpaceBeforePunctAux [] p.data⟩
  let p : String := ⟨commaSpaceAux false p.data⟩
  p

/-- The modelled template shape: a string entrypoint plus the data map.
List/dict/tree entrypoints and the optional preprocess/postprocess/regex
rule lists and include references of the source are outside the modelled
fragment. -/
structure Template where
  entrypoint : String
  data : Assoc Value
  deriving Repr, DecidableEq

/-- The argument of generate_prompt: a template dict or a raw text document
with an embedded fenced JSON block. -/
inductive TemplateInput where
  | dict (t : Template)
  | text (s : String)
  deriving Repr, DecidableEq

/-- Python `s[n:]`. -/
def strDrop (s : String) (n : Nat) : String := ⟨s.data.drop n⟩

/-- Python `str.splitlines()` on the newline-only fragment. -/
def pySplitLines (s : String) : List String :=
  if s.isEmpty then []
  else
    let parts := pySplitChar s '\n'
    if pyEndsWith s "\n" then parts.dropLast else parts

/-- Python `"\n".join(l)`. -/
def joinLines (l : List String) : String := String.intercalate "\n" l

/-- Model of `json.loads` applied to an embedded template block.
JSON parsing is not modelled: every block is treated as unparseable, which
coincides with the source exactly on the inputs whose embedded JSON is
absent or invalid — the only inputs any theorem below evaluates. -/
def pyJsonLoads (_ : String) : Option Template := none

/-- The loop state of ensure_template_dict's line scanner. -/
structure EtdState where
  insideJson : Bool
  insideTemplate : Bool
  currentKey : Option String
  jsonLines : List String
  templateLines : List String
  entrypointLines : List String
  templatesToSet : Assoc String
  codeBlockFound : Bool

/-- One line of ensure_template_dict's scanner loop. -/
def etdStep (st : EtdState) (line : String) : Except Err EtdState :=
  let stripped := pyStrip line
  if pyStartsWith stripped "```json" then
    if st.codeBlockFound then
      .error (.exception "Multiple JSON code blocks found in template string.")
    else
      .ok { st with insideJson := true, codeBlockFound := true,
                    insideTemplate := false, jsonLines := [] }
  else if pyStartsWith stripped "```template." then
    if st.insideJson then .error (.exception "Template blocks must be before JSON block.")
    else
      let st :=
        if st.insideTemplate then
          { st with
            templatesToSet := assocSet st.templatesToSet (st.currentKey.getD "")
              (pyStrip (joinLines st.templateLines)),
            templateLines := [] }
        else st
      .ok { st with currentKey := some (pyStrip (strDrop stripped 12)),
                    insideTemplate := true, templateLines := [] }
  else if pyStartsWith stripped "```" ∧ (st.insideJson ∨ st.insideTemplate) then
    if st.insideTemplate then
      .ok { st with
        templatesToSet := assocSet st.templatesToSet (st.currentKey.getD "")
          (pyStrip (joinLines st.templateLines)),
        insideTemplate := false, currentKey := none, templateLines := [] }
    else .ok { st with insideJson := false }
  else if st.insideJson then .ok { st with jsonLines := st.jsonLines ++ [line] }
  else if st.insideTemplate then .ok { st with templateLines := st.templateLines ++ [line] }
  else .ok { st with entrypointLines := st.entrypointLines ++ [line] }

/-- ensure_template_dict from the source. A dict passes through; a string
is scanned for fenced blocks; every failure on the string path raises a
plain `Exception`, not a `PromptError`. -/
def ensure_template_dict (tin : TemplateInput) : Except Err Template :=
  match tin with
  | .dict t => .ok t
  | .text s =>
    let s := pyStrip s
    match (if pyStartsWith s "\x7b" then pyJsonLoads s else none) with
    | some t => .ok t
    | none => do
      let fin ← (pySplitLines s).foldlM etdStep
        ⟨false, false, none, [], [], [], [], false⟩
      if fin.insideJson ∨ fin.insideTemplate then
        throw (.exception "Unclosed code block in template string.")
      else
        let codeContent := pyStrip (joinLines fin.jsonLines)
        let entryContent := pyStrip (joinLines fin.entrypointLines)
        if codeContent.isEmpty then
          throw (.exception "No JSON code block found in template string.")
        else
          match pyJsonLoads codeContent with
          | none => throw (.exception "Failed to parse JSON code block in template string.")
          | some td =>
            if entryContent.isEmpty then
              throw (.exception "No entrypoint content found outside JSON code block in template string.")
            else
              .ok { td with
                entrypoint := entryContent,
                data := fin.templatesToSet.foldl
                  (fun d kv => assocSet d kv.1 (.str kv.2)) td.data }

/-- initialize_template from the source, returning the template together
with the kwargs dict it mutates. preprocess_template on the modelled
template shape (no preprocess rules, no regex table) reduces to adding the
`meta_text` alias when a `text` argument is present; include_templates is
the identity (no includes). -/
def initialize_template (t : Template) (kwargs : Assoc String) :
    Except Err (Template × Assoc String) := do
  match t.data.find? (fun kv => pyStartsWith kv.1 "meta_" || pyStartsWith kv.1 "track_") with
  | some kv =>
    throw (.promptError ("Template data key '" ++ kv.1 ++
      "' cannot start with 'meta_' or 'track_'. These prefixes are reserved."))
  | none =>
  match kwargs.find? (fun kv => pyStartsWith kv.1 "regex_") with
  | some kv =>
    throw (.promptError ("Argument key '" ++ kv.1 ++
      "' cannot start with 'regex_'. This prefix is reserved."))
  | none =>
  let kwargs :=
    if assocHas kwargs "text" then
      let txt := assocGetD kwargs "text" ""
      assocSet (assocSet kwargs "meta_text" txt) "text" txt
    else kwargs
  let _ ← t.data.foldlM (fun x kv =>
    match kv.2 with
    | .str v => validate_bracets v
    | .list vs => vs.foldlM (fun y item => validate_bracets item <&> fun _ => y) x) ()
  .ok (t, kwargs)

/-- The kwargs-processing loop at the top of _generate_prompt_implementation:
reject keys containing `regex_`, strip a `meta_` prefix, escape every
value. -/
def processKwargs (l : Assoc String) : Except Err (Assoc String) :=
  l.foldlM (fun acc kv =>
    if pyContains kv.1 "regex_" then
      throw (.promptError ("Argument key '" ++ kv.1 ++
        "' cannot contain 'regex_'. This prefix is reserved."))
    else if pyStartsWith kv.1 "meta_" then
      pure (assocSet acc (strDrop kv.1 5) (escape_special_characters kv.2))
    else pure (assocSet acc kv.1 (escape_special_characters kv.2))) []

/-- One pass result record: the output text, the seed the pass consumed and
the statics snapshot (the generation_info echo of the arguments is omitted
from the model; it is a deterministic copy of the kwargs). -/
structure GenResult where
  output : String
  seed : Int
  statics : Assoc String
  deriving Repr, DecidableEq

/-- _generate_prompt_implementation from the source, for the modelled
template shape (string entrypoint). `timeMs` is the time oracle
`int(time.time() * 1000)` and `g` the state of the global random stream
before the call; both are consulted only when `seed < 1`. Returns the
result together with the random-stream state after the pass. -/
def genImpl (fuel : Nat) (t : Template) (seed : Int) (kwargs : Assoc String)
    (timeMs : Nat) (g : Rand) : Except Err (GenResult × Rand) := do
  let seedEff : Int := if seed < 1 then (timeMs : Int) + ((pyRandint 0 (2 ^ 30) g).1 : Int) else seed
  let r := mkRand seedEff
  let kw ← processKwargs kwargs
  let (t, kw) ← initialize_template t kw
  let ep := pyStrip t.entrypoint
  if ep.isEmpty then throw (.promptError "Entrypoint is empty after processing.")
  else do
    let _ ← validate_bracets ep
    let data := kw.foldl (fun d kv => assocSet d ("meta_" ++ kv.1) (.str kv.2)) t.data
    let st : St := ⟨data, [], []⟩
    let (ptext, st, r) ← process_prompt fuel ep st r false
    let ptext := postprocess_prompt ptext
    .ok ({ output := unescape_special_characters ptext, seed := seedEff,
           statics := st.static }, r)

/-- The kwargs screening loop of generate_prompt: reserved-prefix checks and
extraction of the `follow-list-of-*` line lists (those keys are removed from
the kwargs). -/
def extractFollowLists (numContinues : Int) :
    Assoc String → Except Err (Assoc String × List (String × List String))
  | [] => .ok ([], [])
  | (k, v) :: t => do
    if pyStartsWith k "meta_" then
      throw (.promptError ("Argument key '" ++ k ++
        "' cannot start with 'meta_'. This prefix is reserved for metadata."))
    else if 0 < numContinues ∧ pyStartsWith k "meta_last_" then
      throw (.promptError ("Argument key '" ++ k ++
        "' cannot start with 'meta_last_' when using continuation. This prefix is reserved for continuation logic."))
    else if pyStartsWith k "follow-list-of-" then
      let name := strDrop k 15
      let values := ((pySplitChar v '\n').map pyStrip).filter (fun s => ¬ s.isEmpty)
      let (rest, ls) ← extractFollowLists numContinues t
      .ok (rest, if values.isEmpty then ls else (name, values) :: ls)
    else
      let (rest, ls) ← extractFollowLists numContinues t
      .ok ((k, v) :: rest, ls)

/-- The inner `for pass_number in range(num_continues + 1)` loop of
generate_prompt: each pass updates `pass_number`, merges the previous
pass's `meta_last_*` bindings into the kwargs, runs one implementation pass
with seed `seed + current_prompt`, and harvests the statics for the next
pass when continuations are on. -/
def genPassLoop (fuel : Nat) (t : Template) (seed : Int) (timeMs : Nat)
    (numContinues : Int) :
    Nat → Nat → Assoc String → Assoc String → Nat → Rand →
    Except Err (List GenResult × Assoc String × Assoc String × Nat × Rand)
  | 0, _, kwargs, metaLasts, currentPrompt, g => .ok ([], kwargs, metaLasts, currentPrompt, g)
  | n + 1, passIdx, kwargs, metaLasts, currentPrompt, g => do
    let kwargs := assocSet kwargs "pass_number" (toString passIdx)
    let kwargs := metaLasts.foldl (fun m kv => assocSet m kv.1 kv.2) kwargs
    let (res, g) ← genImpl fuel t (seed + currentPrompt) kwargs timeMs g
    let metaLasts :=
      if 0 < numContinues then
        assocSet
          ((res.statics.filter (fun kv => ¬ pyStartsWith kv.1 "meta_last_")).foldl
            (fun m kv => assocSet m ("meta_last_" ++ kv.1) kv.2) metaLasts)
          "meta_last_output" res.output
      else metaLasts
    let (rest, kwargs, metaLasts, cp, g) ←
      genPassLoop fuel t seed timeMs numContinues n (passIdx + 1) kwargs metaLasts
        (currentPrompt + 1) g
    .ok (res :: rest, kwargs, metaLasts, cp, g)

/-- The outer `for p_number in range(num_prompts)` loop of generate_prompt:
bind the `current_*` keys from the follow lists by modulo indexing, then run
the pass loop. -/
def genPromptLoop (fuel : Nat) (t : Template) (seed : Int) (timeMs : Nat)
    (numContinues : Int) (includeLists : List (String × List String)) :
    Nat → Nat → Assoc String → Assoc String → Nat → Rand →
    Except Err (List GenResult × Rand)
  | 0, _, _, _, _, g => .ok ([], g)
  | n + 1, pIdx, kwargs, metaLasts, currentPrompt, g => do
    let kwargs := includeLists.foldl
      (fun m nv => assocSet m ("current_" ++ nv.1) (nv.2.getD (pIdx % nv.2.length) "")) kwargs
    let (rs, kwargs, metaLasts, cp, g) ←
      genPassLoop fuel t seed timeMs numContinues (numContinues.toNat + 1) 0 kwargs
        metaLasts currentPrompt g
    let (rest, g) ←
      genPromptLoop fuel t seed timeMs numContinues includeLists n (pIdx + 1) kwargs
        metaLasts cp g
    .ok (rs ++ rest, g)

/-- The result of generate_prompt: one record, or the ordered list when
several prompts or continuations were requested. -/
inductive GenOut where
  | one (r : GenResult)
  | many (rs : List GenResult)
  deriving Repr, DecidableEq

/-- generate_prompt from the source. `timeMs` and `g` are the time oracle
and the pre-call state of the global random stream: the only two
nondeterministic inputs of the embedded pipeline. -/
def generate_prompt (fuel : Nat) (tin : TemplateInput) (seed : Option Int)
    (kwargs : Assoc String) (numPrompts numContinues : Int) (timeMs : Nat)
    (g : Rand) : Except Err GenOut := do
  let t ← ensure_template_dict tin
  let seedG : Int × Rand :=
    match seed with
    | some s => (s, g)
    | none =>
      let kg := pyRandint 0 (2 ^ 30) g
      ((timeMs : Int) + (kg.1 : Int), kg.2)
  let numPrompts := if numPrompts < 1 then 1 else if numPrompts > 1000 then 1000 else numPrompts
  let numContinues := if numContinues < 0 then 0 else if numContinues > 10 then 10 else numContinues
  let (kwargs, includeLists) ← extractFollowLists numContinues kwargs
  let (results, _) ←
    genPromptLoop fuel t seedG.1 timeMs numContinues includeLists numPrompts.toNat 0
      kwargs [] 0 seedG.2
  match results with
  | [x] => .ok (.one x)
  | rs => .ok (.many rs)

/-- The outcome type of the non-throwing wrapper: a normal result or the
`{"error": message}` record. -/
inductive NoExceptOut where
  | result (g : GenOut)
  | errorRecord (msg : String)
  deriving Repr, DecidableEq

/-- generate_prompt_no_except from the source: it catches `PromptError`
only; any other exception propagates out of the wrapper. -/
def generate_prompt_no_except (fuel : Nat) (tin : TemplateInput) (seed : Option Int)
    (kwargs : Assoc String) (numPrompts numContinues : Int) (timeMs : Nat)
    (g : Rand) : Except Err NoExceptOut :=
  match generate_prompt fuel tin seed kwargs numPrompts numContinues timeMs g with
  | .ok out => .ok (.result out)
  | .error (.promptError m) => .ok (.errorRecord m)
  | .error e => .error e

/-! Concrete fixtures and observation helpers used by the theorems below. -/

/-- Run process_prompt on a prompt from a seeded stream and drop the random
stream from the result (the stream carries a function and has no decidable
equality); the produced string and the whole observable state remain. -/
def runResolve (fuel : Nat) (prompt : String) (st : St) (seed : Int) :
    Except Err (String × St) :=
  (process_prompt fuel prompt st (mkRand seed) false).map (fun x => (x.1, x.2.1))

/-- The template of the source's test_global_exclusive_operator: one
global-exclusive draw over three fruits. -/
def tmplFruit : Template :=
  ⟨"\x7b@@:fruit\x7d", [("fruit", Value.list ["apple", "banana", "orange"])]⟩

/-! ## C1 -/

/-- C1: the spec's arithmetic operators `+` and `-` do not exist in
resolve_operator — every dispatch branch misses them — so the spec examples
abort with an unknown-operator PromptError instead of returning "5", "3.75"
and "6". The repository's own tests (test_sum_operator, test_subtract_operator)
expect the sums, so the code is missing the feature its tests require. -/
theorem c1_arithmetic_operators_missing :
    runResolve 20 "\x7b+:2|3\x7d" ⟨[], [], []⟩ 42 =
      .error (.promptError "Unknown operator '+' in prompt.") ∧
    runResolve 20 "\x7b+:2.5|1.25\x7d" ⟨[], [], []⟩ 42 =
      .error (.promptError "Unknown operator '+' in prompt.") ∧
    runResolve 20 "\x7b-:10|4\x7d" ⟨[], [], []⟩ 42 =
      .error (.promptError "Unknown operator '-' in prompt.") := by
  decide

/-! ## C2 -/

/-- C2: the comparison dispatcher wires `<` and `<=` wrongly: for `<` it
sets negative without exact, computing not (left > right), which is
left ≤ right, and for `<=` it sets both flags, computing not (left ≥ right),
which is left < right. At key = "10" against literal "10", the expression
bracket `<` returns the true-text (the claim requires the false-text) and
`<=` returns the false-text (the claim requires the true-text). The `>` and
`>=` wirings agree with the claim at this input. -/
theorem c2_less_than_boundary_swapped :
    runResolve 20 "\x7b<:a|10|T|F\x7d" ⟨[("a", Value.str "10")], [], []⟩ 42 =
      .ok ("T", ⟨[("a", Value.str "10")], [], []⟩) ∧
    runResolve 20 "\x7b<=:a|10|T|F\x7d" ⟨[("a", Value.str "10")], [], []⟩ 42 =
      .ok ("F", ⟨[("a", Value.str "10")], [], []⟩) ∧
    runResolve 20 "\x7b>:a|10|T|F\x7d" ⟨[("a", Value.str "10")], [], []⟩ 42 =
      .ok ("F", ⟨[("a", Value.str "10")], [], []⟩) ∧
    runResolve 20 "\x7b>=:a|10|T|F\x7d" ⟨[("a", Value.str "10")], [], []⟩ 42 =
      .ok ("T", ⟨[("a", Value.str "10")], [], []⟩) := by
  decide

/-! ## C3 -/

/-- C3: there is no process-wide ledger. `@@` is handled by the generic
`endswith "@"` branch as a scoped-exclusive draw with prefix "@", recorded
in the per-pass usage map of the deep-copied template state, which is
discarded when the pass ends; the embedded generate_prompt accordingly
reads and writes no cross-call state at all. Concretely, a first call
(seed 456) draws "banana" and a later call (seed 789) draws "banana" again
even though only one of the three fruit options was ever used — the claimed
ledger would have excluded it. (The source's own test suite imports a
GLOBAL_UNIQUE_STATE from the module and asserts cross-call exclusion; the
module defines no such state.) -/
theorem c3_no_process_wide_ledger :
    generate_prompt 40 (.dict tmplFruit) (some 456) [] 1 0 1000 (mkRand 7) =
      .ok (.one ⟨"banana", 456, []⟩) ∧
    generate_prompt 40 (.dict tmplFruit) (some 789) [] 1 0 1000 (mkRand 7) =
      .ok (.one ⟨"banana", 789, []⟩) := by
  decide

/-! ## C5: counterexample -/

/-- C5 counterexample: the seed 0 is explicitly supplied, yet the two runs
differ when the time oracle differs, because _generate_prompt_implementation
re-derives a time-and-randint seed whenever the supplied seed is below 1;
already the `seed` field of the result records differs between the runs. -/
theorem c5_seed_zero_nondeterministic :
    generate_prompt 20 (.dict ⟨"Hello World", []⟩) (some 0) [] 1 0 1000 (mkRand 7) ≠
    generate_prompt 20 (.dict ⟨"Hello World", []⟩) (some 0) [] 1 0 2000 (mkRand 7) := by
  decide

/-! ## C7: counterexample -/

/-- C7 counterexample: two store operations on the same key in one pass: the
second wins. operator_store assigns `state["static"][prefix + key] = value`
unconditionally, so after `{set:k|a}{set:k|b}` the statics snapshot holds
"b", not the first-resolved "a" that the write-once claim requires. -/
theorem c7_store_overwrites :
    runResolve 20 "\x7bset:k|a\x7d\x7bset:k|b\x7d" ⟨[], [], []⟩ 42 =
      .ok ("", ⟨[], [("k", "b")], []⟩) ∧
    runResolve 20 "\x7bset:k|a\x7d\x7bset:k|b\x7d" ⟨[], [], []⟩ 42 ≠
      .ok ("", ⟨[], [("k", "a")], []⟩) := by
  decide

/-! ## C9: counterexample -/

/-- C9 counterexample: a failing input on which the wrapper still raises.
A string template without a fenced JSON block makes ensure_template_dict
raise a plain Exception ("No JSON code block found in template string."),
which generate_prompt_no_except does not catch — it catches PromptError
only — so the failure propagates instead of becoming an error record. -/
theorem c9_wrapper_reraises_plain_exception :
    generate_prompt_no_except 10 (.text "hello") (some 42) [] 1 0 1000 (mkRand 7) =
      .error (.exception "No JSON code block found in template string.") := by
  decide

/-! ## C9: amended theorem -/

/-- C9 amended: the wrapper is non-throwing exactly for the failures raised
as PromptError: those become the `{"error": message}` record, successes pass
through unchanged, and any other exception (the plain Exceptions of
ensure_template_dict's string-template path) propagates out of the wrapper. -/
theorem c9_wrapper_catches_prompt_errors_only (fuel : Nat) (tin : TemplateInput)
    (seed : Option Int) (kwargs : Assoc String) (np nc : Int) (tm : Nat) (g : Rand) :
    (∀ m, generate_prompt fuel tin seed kwargs np nc tm g = .error (.promptError m) →
      generate_prompt_no_except fuel tin seed kwargs np nc tm g = .ok (.errorRecord m)) ∧
    (∀ out, generate_prompt fuel tin seed kwargs np nc tm g = .ok out →
      generate_prompt_no_except fuel tin seed kwargs np nc tm g = .ok (.result out)) ∧
    (∀ m, generate_prompt fuel tin seed kwargs np nc tm g = .error (.exception m) →
      generate_prompt_no_except fuel tin seed kwargs np nc tm g = .error (.exception m)) := by
  refine ⟨fun m h => ?_, fun out h => ?_, fun m h => ?_⟩ <;>
    simp [generate_prompt_no_except, h]

/-- C9 witness: the amended theorem applied at a concrete input whose pass
fails with a PromptError (a missing data key): the wrapper returns the error
record. -/
theorem c9_wrapper_witness :
    generate_prompt_no_except 10 (.dict ⟨"\x7bmissing\x7d", []⟩) (some 42) [] 1 0 1000
        (mkRand 7) =
      .ok (.errorRecord "Selection key 'missing' not found in state data.") :=
  (c9_wrapper_catches_prompt_errors_only 10 (.dict ⟨"\x7bmissing\x7d", []⟩) (some 42)
      [] 1 0 1000 (mkRand 7)).1
    "Selection key 'missing' not found in state data." (by decide)

/-! ## C7: amended theorem -/

/-- C7 amended: the memoized selection register is write-once — select_static
returns a present entry unchanged, leaving the whole state as it is — while
the store operator overwrites: it assigns the newly resolved text over any
present entry, so the snapshot holds the last stored value, as the
counterexample shows concretely. -/
theorem c7_static_memo_write_once (fuel : Nat) :
    (∀ (name pfx v : String) (st : St) (r : Rand),
      assocFind st.static (pfx ++ name) = some v →
      select_static (fuel + 1) name st r pfx = .ok (v, st, r)) ∧
    (∀ (key text pfx : String) (st : St) (r : Rand),
      pyContains text "\x7b" = false →
      operator_store (fuel + 1) key text st r pfx =
        .ok ("", { st with static := assocSet st.static (pfx ++ key) text }, r)) := by
  constructor
  · intro name pfx v st r h
    simp [select_static, h]
  · intro key text pfx st r h
    simp [operator_store, h, Bind.bind, Except.bind]

/-- C7 witness: the amended theorem applied at concrete inputs: a cached
static entry is returned unchanged, and a store over a present entry
replaces it. -/
theorem c7_static_memo_witness :
    select_static 7 "color" ⟨[("color", Value.str "blue")], [("acolor", "red")], []⟩
        (mkRand 3) "a" =
      .ok ("red", ⟨[("color", Value.str "blue")], [("acolor", "red")], []⟩, mkRand 3) ∧
    operator_store 7 "k" "b" ⟨[], [("k", "a")], []⟩ (mkRand 3) "" =
      .ok ("", ⟨[], [("k", "b")], []⟩, mkRand 3) :=
  ⟨(c7_static_memo_write_once 6).1 "color" "a" "red"
      ⟨[("color", Value.str "blue")], [("acolor", "red")], []⟩ (mkRand 3) (by decide),
   (c7_static_memo_write_once 6).2 "k" "b" ""
      ⟨[], [("k", "a")], []⟩ (mkRand 3) (by decide)⟩

/-! ## C4 -/

/-- No opening bracket occurs among these characters. -/
def noLBrace (l : List Char) : Bool := l.all (fun c => c ≠ '\x7b')

/-- Bracket balance of a span relative to a starting depth: every closing
bracket has an opening one before it and the depth ends at zero. -/
def balAux : List Char → Nat → Bool
  | [], d => d == 0
  | c :: t, d =>
    if c = '\x7b' then balAux t (d + 1)
    else if c = '\x7d' then
      if d = 0 then false else balAux t (d - 1)
    else balAux t d

/-- The scan of eat_next_bracets consumes a balanced span and stops exactly
at the closing bracket matching the opening one it started after. -/
lemma eatScan_balanced (c : List Char) : ∀ (d : Nat) (acc post : List Char),
    balAux c d = true →
    eatScan (c ++ '\x7d' :: post) (d + 1) acc = ⟨acc ++ c⟩ := by
  induction c with
  | nil =>
    intro d acc post h
    simp only [balAux, beq_iff_eq] at h
    subst h
    simp [eatScan]
  | cons ch t ih =>
    intro d acc post h
    by_cases h1 : ch = '\x7b'
    · subst h1
      simp only [balAux, if_pos rfl] at h
      simpa using ih (d + 1) (acc ++ ['\x7b']) post h
    · by_cases h2 : ch = '\x7d'
      · subst h2
        have hne : ('\x7d' : Char) ≠ '\x7b' := by decide
        simp only [balAux, if_neg hne, if_pos rfl] at h
        by_cases hd0 : d = 0
        · rw [if_pos hd0] at h
          simp at h
        rw [if_neg hd0] at h
        have hbal := h
        obtain ⟨e, rfl⟩ : ∃ e, d = e + 1 := ⟨d - 1, by omega⟩
        have hdepth : e + 1 + 1 ≠ 1 := by omega
        simp only [List.cons_append, eatScan, if_neg hne, if_pos rfl, if_neg hdepth]
        simpa using ih e (acc ++ ['\x7d']) post (by simpa using hbal)
      · simp only [balAux, if_neg h1, if_neg h2] at h
        simp only [List.cons_append, eatScan, if_neg h1, if_neg h2]
        simpa using ih d (acc ++ [ch]) post h

/-- Characters without an opening bracket are all consumed by the
scanner's leading dropWhile. -/
lemma dropWhile_no_lbrace (pre rest : List Char) (h : noLBrace pre = true) :
    (pre ++ '\x7b' :: rest).dropWhile (fun c => c ≠ '\x7b') = '\x7b' :: rest := by
  induction pre with
  | nil => simp [List.dropWhile_cons]
  | cons a t ih =>
    simp only [noLBrace, List.all_cons, Bool.and_eq_true, decide_eq_true_eq] at h
    simp only [List.cons_append, List.dropWhile_cons, decide_eq_true_eq]
    rw [if_pos h.1]
    exact ih (by simpa [noLBrace] using h.2)

/-- A string without an opening bracket is consumed whole by the leading
dropWhile. -/
lemma dropWhile_no_lbrace_all (s : List Char) (h : noLBrace s = true) :
    s.dropWhile (fun c => c ≠ '\x7b') = [] := by
  induction s with
  | nil => rfl
  | cons a t ih =>
    simp only [noLBrace, List.all_cons, Bool.and_eq_true, decide_eq_true_eq] at h
    simp only [List.dropWhile_cons, decide_eq_true_eq]
    rw [if_pos h.1]
    exact ih (by simpa [noLBrace] using h.2)

/-- C4 counterexample: on "x{a{b}c}y" the scanner returns the span content
"a{b}c", which still contains a nested bracket expression — not the first
innermost span "b" that the claim describes. -/
theorem c4_counterexample_nested_span :
    eat_next_bracets "x\x7ba\x7bb\x7dc\x7dy" = "a\x7bb\x7dc" ∧
    pyContains (eat_next_bracets "x\x7ba\x7bb\x7dc\x7dy") "\x7b" = true ∧
    eat_next_bracets "x\x7ba\x7bb\x7dc\x7dy" ≠ "b" := by
  decide

/-- C4 amended: the scanner returns the content of the first OUTERMOST
balanced span — everything between the first opening bracket and its
matching closing bracket — and the empty string when the input has no
opening bracket at all (innermost-first processing arises only from the
resolver recursing into the returned content). -/
theorem c4_scanner_first_outermost_span :
    (∀ pre c post : List Char, noLBrace pre = true → balAux c 0 = true →
      eat_next_bracets ⟨pre ++ '\x7b' :: (c ++ '\x7d' :: post)⟩ = ⟨c⟩) ∧
    (∀ s : List Char, noLBrace s = true → eat_next_bracets ⟨s⟩ = "") := by
  constructor
  · intro pre c post hpre hc
    unfold eat_next_bracets
    rw [show (⟨pre ++ '\x7b' :: (c ++ '\x7d' :: post)⟩ : String).data =
        pre ++ '\x7b' :: (c ++ '\x7d' :: post) from rfl]
    rw [dropWhile_no_lbrace pre _ hpre]
    simpa using eatScan_balanced c 0 [] post hc
  · intro s hs
    unfold eat_next_bracets
    rw [show (⟨s⟩ : String).data = s from rfl]
    rw [dropWhile_no_lbrace_all s hs]

/-- C4 witness: the amended theorem applied at concrete inputs: on "q{ab}z"
the scanner yields "ab", and on brace-free "qz" it yields the empty
string. -/
theorem c4_scanner_witness :
    eat_next_bracets "q\x7bab\x7dz" = "ab" ∧ eat_next_bracets "qz" = "" := by
  constructor
  · have h := c4_scanner_first_outermost_span.1 "q".data "ab".data "z".data
      (by decide) (by decide)
    have e1 : (⟨"q".data ++ '\x7b' :: ("ab".data ++ '\x7d' :: "z".data)⟩ : String) =
        "q\x7bab\x7dz" := by decide
    have e2 : (⟨"ab".data⟩ : String) = "ab" := rfl
    rw [e1, e2] at h
    exact h
  · have h := c4_scanner_first_outermost_span.2 "qz".data (by decide)
    exact h

/-! ## C8 -/

/-- The pathological self-expanding fixture: the data key `a` resolves to
the bracket expression `{a}` again, so the source recurses forever on the
entrypoint `{a}`. -/
def stPathological : St := ⟨[("a", Value.str "\x7ba\x7d")], [], []⟩

/-- Evaluation facts about the pathological fixture, used to push the
fueled resolver through one cycle of its recursion. -/
lemma evPath1 : pyContains "\x7ba\x7d" "\x7b" = true := by decide

lemma evPath2 : eat_next_bracets "\x7ba\x7d" = "a" := by decide

lemma evPath3 : ("a" : String).isEmpty = false := by decide

lemma evPath4 : pyContains "a" "\x7b" = false := by decide

lemma evPath5 : pyContains "a" ":" = false := by decide

lemma evPath6 : pyContains "a" "|" = false := by decide

lemma evPath7 : pyStrip "a" = "a" := by decide

lemma evPath8 : pyStartsWith "a" "comment:" = false := by decide

lemma evPath9 : pyStartsWith "a" "//:" = false := by decide

lemma evPath10 : assocFind stPathological.data "a" = some (Value.str "\x7ba\x7d") := by
  decide

/-- C8: the source imposes no depth or iteration cap at all. On the
self-expanding fixture the resolver re-enters itself with the same prompt
and state for every fuel bound, so the fueled embedding exhausts any fuel:
the recursion of the source never terminates (in Python it aborts with the
interpreter's RecursionError, which is not a PromptError and is not the
claimed resource-exhaustion failure of the pass). -/
theorem c8_no_recursion_cap : ∀ (fuel : Nat) (r : Rand),
    process_prompt fuel "\x7ba\x7d" stPathological r false = .error .fuel := by
  have main : ∀ fuel : Nat,
      (∀ r, process_prompt fuel "\x7ba\x7d" stPathological r false = .error .fuel) ∧
      (∀ r, process_prompt fuel "a" stPathological r true = .error .fuel) := by
    intro fuel
    induction fuel using Nat.strong_induction_on with
    | _ n ih =>
      match n with
      | 0 => exact ⟨fun _ => rfl, fun _ => rfl⟩
      | 1 => exact ⟨fun _ => rfl, fun _ => rfl⟩
      | 2 => exact ⟨fun _ => rfl, fun _ => rfl⟩
      | (m + 3) =>
        constructor
        · intro r
          have h := (ih (m + 1) (by omega)).2 r
          rw [process_prompt.eq_2]
          simp [processLoop.eq_2, h, evPath1, evPath2, evPath3, Bind.bind, Except.bind]
        · intro r
          have h := (ih m (by omega)).1 r
          rw [process_prompt.eq_2]
          simp [processLoop.eq_2, resolve_operator.eq_2, select_normal.eq_2, h,
            evPath4, evPath5, evPath6, evPath7, evPath8, evPath9, evPath10, evPath1,
            Bind.bind, Except.bind]
  exact fun fuel r => (main fuel).1 r

/-! ## C6 -/

/-- Iterate scoped-exclusive draws for one prefix and key, collecting the
drawn values in order. -/
def exclusiveDraws (fuel : Nat) (pfx key : String) :
    Nat → St → Rand → Except Err (List String × St × Rand)
  | 0, st, r => .ok ([], st, r)
  | n + 1, st, r => do
    let (c, st', r') ← select_exclusive fuel key st r pfx
    let (cs, st'', r'') ← exclusiveDraws fuel pfx key n st' r'
    .ok (c :: cs, st'', r'')

/-- The uniform draw lands inside a non-empty list. -/
lemma mem_getD_mod (l : List String) (k : Nat) (h : l ≠ []) :
    l.getD (k % l.length) "" ∈ l := by
  have hlen : 0 < l.length := List.length_pos.mpr h
  have hk : k % l.length < l.length := Nat.mod_lt _ hlen
  rw [List.getD_eq_getElem l "" hk]
  exact List.getElem_mem hk

/-- pyChoice on a non-empty list succeeds with an element of the list. -/
lemma pyChoice_ok (l : List String) (r : Rand) (h : l ≠ []) :
    ∃ c r', pyChoice l r = .ok (c, r') ∧ c ∈ l := by
  have hempty : l.isEmpty = false := by simpa [List.isEmpty_iff] using h
  refine ⟨l.getD (r.stream r.idx % l.length) "", { r with idx := r.idx + 1 }, ?_,
    mem_getD_mod l _ h⟩
  simp [pyChoice, hempty, randStep]

/-- Dict lookup of a just-assigned key. -/
lemma assocFind_set_self {α : Type} (m : Assoc α) (k : String) (v : α) :
    assocFind (assocSet m k v) k = some v := by
  induction m with
  | nil => simp [assocSet, assocFind]
  | cons kv t ih =>
    by_cases hk : kv.1 = k
    · simp [assocSet, assocFind, hk]
    · simp [assocSet, assocFind, hk, ih]

/-- Dict get-with-default of a just-assigned key. -/
lemma assocGetD_set_self {α : Type} (m : Assoc α) (k : String) (v d : α) :
    assocGetD (assocSet m k v) k d = v := by
  simp [assocGetD, assocFind_set_self]

/-- Assigning a key twice keeps only the second value. -/
lemma assocSet_assocSet {α : Type} (m : Assoc α) (k : String) (v w : α) :
    assocSet (assocSet m k v) k w = assocSet m k w := by
  induction m with
  | nil => simp [assocSet]
  | cons kv t ih =>
    by_cases hk : kv.1 = k
    · simp [assocSet, hk]
    · simp [assocSet, hk, ih]

/-- A duplicate-free list contained in another is no longer than it. -/
lemma nodup_subset_length_le {l₁ l₂ : List String} (h : l₁.Nodup)
    (hs : ∀ x ∈ l₁, x ∈ l₂) : l₁.length ≤ l₂.length := by
  calc l₁.length = l₁.toFinset.card := (List.toFinset_card_of_nodup h).symm
    _ ≤ l₂.toFinset.card := Finset.card_le_card (fun x hx => by
        rw [List.mem_toFinset] at hx ⊢
        exact hs x hx)
    _ ≤ l₂.length := List.toFinset_card_le l₂

/-- One scoped-exclusive draw while some options are still unused: the
choice comes from the unused pool and is appended to the ledger; data and
statics are untouched. -/
lemma select_exclusive_step (f : Nat) (key pfx : String) (st : St) (r : Rand)
    (opts used : List String)
    (hfind : assocFind st.data key = some (.list opts))
    (hnb : ∀ o ∈ opts, pyContains o "\x7b" = false)
    (hused : assocGetD st.usage (pfx ++ key) [] = used)
    (hfne : opts.filter (fun o => ¬ used.contains o) ≠ []) :
    ∃ c r', select_exclusive (f + 1) key st r pfx =
        .ok (c, { st with usage := assocSet st.usage (pfx ++ key) (used ++ [c]) }, r') ∧
      c ∈ opts ∧ c ∉ used := by
  have hne : opts ≠ [] := by
    intro he
    subst he
    simp at hfne
  have hempty : opts.isEmpty = false := by simpa [List.isEmpty_iff] using hne
  obtain ⟨c, r', hpc, hcm⟩ := pyChoice_ok (opts.filter (fun o => ¬ used.contains o)) r hfne
  have hmem := List.mem_filter.mp hcm
  have hcnb : pyContains c "\x7b" = false := hnb c hmem.1
  have hcnu : c ∉ used := by simpa using hmem.2
  have hflt : (opts.filter (fun o => ¬ used.contains o)).isEmpty = false := by
    simpa [List.isEmpty_iff] using hfne
  refine ⟨c, r', ?_, hmem.1, hcnu⟩
  rw [select_exclusive.eq_2]
  simp only [hfind, hempty, hused, hflt, Bool.false_eq_true, if_false, hpc,
    Bind.bind, Except.bind, hcnb]

/-- One scoped-exclusive draw after the ledger covers every option: the
ledger is cleared and restarted with just the new choice. -/
lemma select_exclusive_reset (f : Nat) (key pfx : String) (st : St) (r : Rand)
    (opts used : List String)
    (hfind : assocFind st.data key = some (.list opts))
    (hne : opts ≠ [])
    (hnb : ∀ o ∈ opts, pyContains o "\x7b" = false)
    (hused : assocGetD st.usage (pfx ++ key) [] = used)
    (hcov : opts.filter (fun o => ¬ used.contains o) = []) :
    ∃ c r', select_exclusive (f + 1) key st r pfx =
        .ok (c, { st with usage := assocSet st.usage (pfx ++ key) [c] }, r') ∧
      c ∈ opts := by
  have hempty : opts.isEmpty = false := by simpa [List.isEmpty_iff] using hne
  obtain ⟨c, r', hpc, hcm⟩ := pyChoice_ok opts r hne
  have hcnb : pyContains c "\x7b" = false := hnb c hcm
  refine ⟨c, r', ?_, hcm⟩
  rw [select_exclusive.eq_2]
  simp only [hfind, hempty, hused, hcov, Bool.false_eq_true, if_false, hpc,
    Bind.bind, Except.bind, hcnb, List.isEmpty_nil, if_true,
    assocGetD_set_self, assocSet_assocSet]
  simp

/-- The drawn values extend the ledger one by one while staying inside the
option set, pairwise fresh. -/
lemma exclusiveDraws_spec (f : Nat) (pfx key : String) (opts : List String)
    (hnd : opts.Nodup) (hnb : ∀ o ∈ opts, pyContains o "\x7b" = false) :
    ∀ (n : Nat) (st : St) (r : Rand) (prev : List String),
      assocFind st.data key = some (.list opts) →
      assocGetD st.usage (pfx ++ key) [] = prev →
      prev.Nodup → (∀ p ∈ prev, p ∈ opts) →
      n + prev.length ≤ opts.length →
      ∃ cs st' r', exclusiveDraws (f + 1) pfx key n st r = .ok (cs, st', r') ∧
        cs.length = n ∧ (prev ++ cs).Nodup ∧ (∀ c ∈ cs, c ∈ opts) ∧
        st'.data = st.data ∧ st'.static = st.static ∧
        assocGetD st'.usage (pfx ++ key) [] = prev ++ cs := by
  intro n
  induction n with
  | zero =>
    intro st r prev h1 h2 h3 h4 _
    exact ⟨[], st, r, rfl, rfl, by simpa using h3, by simp, rfl, rfl, by simpa using h2⟩
  | succ n ih =>
    intro st r prev h1 h2 h3 h4 h5
    have hflt : opts.filter (fun o => ¬ prev.contains o) ≠ [] := by
      intro hc
      have hsub : ∀ o ∈ opts, o ∈ prev := by
        intro o ho
        by_contra hno
        have hmo : o ∈ opts.filter (fun o => ¬ prev.contains o) := by
          rw [List.mem_filter]
          exact ⟨ho, by simpa using hno⟩
        rw [hc] at hmo
        simp at hmo
      have hle : opts.length ≤ prev.length := nodup_subset_length_le hnd hsub
      omega
    obtain ⟨c, r', hsel, hco, hcnp⟩ :=
      select_exclusive_step f key pfx st r opts prev h1 hnb h2 hflt
    obtain ⟨cs, st', r'', hdr, hlen, hnd', hmem', hdata, hstatic, hled⟩ :=
      ih { st with usage := assocSet st.usage (pfx ++ key) (prev ++ [c]) } r'
        (prev ++ [c]) h1 (assocGetD_set_self _ _ _ _)
        (by
          rw [List.nodup_append]
          exact ⟨h3, List.nodup_singleton c, by simpa using hcnp⟩)
        (by
          intro p hp
          rcases List.mem_append.mp hp with hp | hp
          · exact h4 p hp
          · simpa using (List.mem_singleton.mp hp) ▸ hco)
        (by simpa using by omega)
    refine ⟨c :: cs, st', r'', ?_, by simp [hlen], ?_, ?_, by rw [hdata], by rw [hstatic],
      ?_⟩
    · simp only [exclusiveDraws, hsel, hdr, Bind.bind, Except.bind]
    · rw [List.append_assoc] at hnd'
      simpa using hnd'
    · intro x hx
      rcases List.mem_cons.mp hx with hx | hx
      · exact hx ▸ hco
      · exact hmem' x hx
    · rw [hled]
      simp

/-- C6: from a fresh ledger, the first m scoped-exclusive draws for one
prefix and key are pairwise distinct values of the option set; after every
draw the ledger equals exactly the values drawn so far, hence is a subset of
the option set; and once the ledger covers all m options, the next draw
clears it and restarts it with just the new choice (which may repeat an
earlier value). Options are taken duplicate-free and bracket-free, so a
draw is the recorded option itself. -/
theorem c6_scoped_exclusive_draws (f : Nat) (pfx key : String) (st : St) (r : Rand)
    (opts : List String)
    (hfind : assocFind st.data key = some (.list opts))
    (hne : opts ≠ [])
    (hnd : opts.Nodup)
    (hnb : ∀ o ∈ opts, pyContains o "\x7b" = false)
    (hfresh : assocGetD st.usage (pfx ++ key) [] = []) :
    (∀ n, n ≤ opts.length →
      ∃ cs st' r', exclusiveDraws (f + 1) pfx key n st r = .ok (cs, st', r') ∧
        cs.Nodup ∧ cs.length = n ∧ (∀ c ∈ cs, c ∈ opts) ∧
        assocGetD st'.usage (pfx ++ key) [] = cs) ∧
    (∀ cs st' r', exclusiveDraws (f + 1) pfx key opts.length st r = .ok (cs, st', r') →
      ∃ c st'' r'', select_exclusive (f + 1) key st' r' pfx = .ok (c, st'', r'') ∧
        c ∈ opts ∧ assocGetD st''.usage (pfx ++ key) [] = [c]) := by
  constructor
  · intro n hn
    obtain ⟨cs, st', r', hdr, hlen, hnd', hmem', _, _, hled⟩ :=
      exclusiveDraws_spec f pfx key opts hnd hnb n st r [] hfind hfresh
        List.nodup_nil (by simp) (by simpa using hn)
    exact ⟨cs, st', r', hdr, by simpa using hnd', hlen, hmem', by simpa using hled⟩
  · intro cs st' r' hdr
    obtain ⟨cs₀, st₀, r₀, hdr₀, hlen₀, hnd₀, hmem₀, hdata₀, _, hled₀⟩ :=
      exclusiveDraws_spec f pfx key opts hnd hnb opts.length st r [] hfind hfresh
        List.nodup_nil (by simp) (by simp)
    rw [hdr] at hdr₀
    obtain ⟨hcs, hst, hr⟩ : cs₀ = cs ∧ st₀ = st' ∧ r₀ = r' := by
      have h := hdr₀
      injection h with h
      exact ⟨(congrArg Prod.fst h.symm), by
        have := congrArg (fun x => x.2.1) h
        exact this.symm, by
        have := congrArg (fun x => x.2.2) h
        exact this.symm⟩
    subst hcs hst hr
    have hcov : opts.filter (fun o => ¬ cs₀.contains o) = [] := by
      rw [List.filter_eq_nil_iff]
      intro o ho
      have hsubrev : ∀ x ∈ opts, x ∈ cs₀ := by
        intro x hx
        by_contra hnx
        have h1 : cs₀.toFinset ⊆ opts.toFinset := by
          intro y hy
          rw [List.mem_toFinset] at hy ⊢
          exact hmem₀ y hy
        have hcard : opts.toFinset.card ≤ cs₀.toFinset.card := by
          rw [List.toFinset_card_of_nodup hnd,
            List.toFinset_card_of_nodup (show cs₀.Nodup by simpa using hnd₀)]
          omega
        have he : cs₀.toFinset = opts.toFinset :=
          Finset.eq_of_subset_of_card_le h1 hcard
        rw [← List.mem_toFinset, ← he, List.mem_toFinset] at hx
        exact hnx hx
      simpa using hsubrev o ho
    obtain ⟨c, r'', hsel, hcm⟩ :=
      select_exclusive_reset f key pfx st₀ r₀ opts cs₀
        (by rw [hdata₀]; exact hfind) hne hnb (by simpa using hled₀) hcov
    exact ⟨c, _, r'', hsel, hcm, assocGetD_set_self _ _ _ _⟩

/-- C6 witness: the invariant applied to the concrete fixture of the test
suite — key `item` with the two options x and y under prefix `a` — at the
full draw count: the two draws are distinct, lie in the option set, and the
ledger equals them. -/
theorem c6_scoped_exclusive_witness :
    ∃ cs st' r', exclusiveDraws 3 "a" "item"
        2 ⟨[("item", Value.list ["x", "y"])], [], []⟩ (mkRand 5) = .ok (cs, st', r') ∧
      cs.Nodup ∧ cs.length = 2 ∧ (∀ c ∈ cs, c ∈ ["x", "y"]) ∧
      assocGetD st'.usage ("a" ++ "item") [] = cs :=
  (c6_scoped_exclusive_draws 2 "a" "item" ⟨[("item", Value.list ["x", "y"])], [], []⟩
      (mkRand 5) ["x", "y"] (by decide) (by decide) (by decide)
      (by decide) (by decide)).1 2 (by decide)

/-! ## C5: amended theorem -/

/-- One pass with a positive seed ignores both the time oracle and the
pre-existing random-stream state: random.seed(seed) replaces the stream. -/
lemma genImpl_seed_pos (fuel : Nat) (t : Template) (s : Int) (kw : Assoc String)
    (t1 t2 : Nat) (g1 g2 : Rand) (h : 1 ≤ s) :
    genImpl fuel t s kw t1 g1 = genImpl fuel t s kw t2 g2 := by
  have h' : ¬ s < 1 := by omega
  simp only [genImpl, if_neg h']

/-- The pass loop with a positive base seed and at least one pass is
independent of the time oracle and the incoming stream state: the first
pass already reseeds with seed + current_prompt ≥ 1, after which the
stream states of the two runs coincide. -/
lemma genPassLoop_seed_pos (fuel : Nat) (t : Template) (s : Int) (nc : Int)
    (h : 1 ≤ s) :
    ∀ (n passIdx : Nat) (kw ml : Assoc String) (cp : Nat) (t1 t2 : Nat) (g1 g2 : Rand),
      genPassLoop fuel t s t1 nc (n + 1) passIdx kw ml cp g1 =
      genPassLoop fuel t s t2 nc (n + 1) passIdx kw ml cp g2 := by
  intro n
  induction n with
  | zero =>
    intro passIdx kw ml cp t1 t2 g1 g2
    conv_lhs => rw [genPassLoop.eq_2]
    conv_rhs => rw [genPassLoop.eq_2]
    rw [genImpl_seed_pos fuel t (s + cp) _ t1 t2 g1 g2 (by
      have : (0 : Int) ≤ (cp : Int) := Int.ofNat_nonneg cp
      omega)]
    cases hgen : genImpl fuel t (s + (cp : Int))
        ((ml.foldl (fun m kv => assocSet m kv.1 kv.2)
          (assocSet kw "pass_number" (toString passIdx)))) t2 g2 with
    | error e => rfl
    | ok v =>
      obtain ⟨res, g⟩ := v
      simp only [Bind.bind, Except.bind, genPassLoop]
  | succ n ih =>
    intro passIdx kw ml cp t1 t2 g1 g2
    conv_lhs => rw [genPassLoop.eq_2]
    conv_rhs => rw [genPassLoop.eq_2]
    rw [genImpl_seed_pos fuel t (s + cp) _ t1 t2 g1 g2 (by
      have : (0 : Int) ≤ (cp : Int) := Int.ofNat_nonneg cp
      omega)]
    cases hgen : genImpl fuel t (s + (cp : Int))
        ((ml.foldl (fun m kv => assocSet m kv.1 kv.2)
          (assocSet kw "pass_number" (toString passIdx)))) t2 g2 with
    | error e => rfl
    | ok v =>
      obtain ⟨res, g⟩ := v
      simp only [Bind.bind, Except.bind]
      rw [ih _ _ _ _ t1 t2]

/-- The prompt loop with a positive base seed and at least one slot is
independent of the time oracle and the incoming stream state (the pass
loop inside always runs at least one pass). -/
lemma genPromptLoop_seed_pos (fuel : Nat) (t : Template) (s : Int) (nc : Int)
    (il : List (String × List String)) (h : 1 ≤ s) :
    ∀ (n pIdx : Nat) (kw ml : Assoc String) (cp : Nat) (t1 t2 : Nat) (g1 g2 : Rand),
      genPromptLoop fuel t s t1 nc il (n + 1) pIdx kw ml cp g1 =
      genPromptLoop fuel t s t2 nc il (n + 1) pIdx kw ml cp g2 := by
  intro n
  induction n with
  | zero =>
    intro pIdx kw ml cp t1 t2 g1 g2
    conv_lhs => rw [genPromptLoop.eq_2]
    conv_rhs => rw [genPromptLoop.eq_2]
    rw [genPassLoop_seed_pos fuel t s nc h _ _ _ _ _ t1 t2]
    cases hp : genPassLoop fuel t s t2 nc (nc.toNat + 1) 0
        (il.foldl (fun m nv => assocSet m ("current_" ++ nv.1)
          (nv.2.getD (pIdx % nv.2.length) "")) kw) ml cp g2 with
    | error e => rfl
    | ok v =>
      obtain ⟨rs, kw', ml', cp', g'⟩ := v
      simp only [Bind.bind, Except.bind, genPromptLoop]
  | succ n ih =>
    intro pIdx kw ml cp t1 t2 g1 g2
    conv_lhs => rw [genPromptLoop.eq_2]
    conv_rhs => rw [genPromptLoop.eq_2]
    rw [genPassLoop_seed_pos fuel t s nc h _ _ _ _ _ t1 t2]
    cases hp : genPassLoop fuel t s t2 nc (nc.toNat + 1) 0
        (il.foldl (fun m nv => assocSet m ("current_" ++ nv.1)
          (nv.2.getD (pIdx % nv.2.length) "")) kw) ml cp g2 with
    | error e => rfl
    | ok v =>
      obtain ⟨rs, kw', ml', cp', g'⟩ := v
      simp only [Bind.bind, Except.bind]
      rw [ih _ _ _ _ t1 t2]

/-- C5 amended: generation is deterministic for every explicitly supplied
seed that is at least 1: the whole outcome — success with all its records
(texts, per-record seeds, statics) or failure with its error — does not
depend on the time oracle or on the pre-call random-stream state, the only
nondeterministic inputs. (For seed ≤ 0 the implementation re-derives a
time-based seed per pass and determinism fails, as the counterexample
shows.) -/
theorem c5_deterministic_for_positive_seed (fuel : Nat) (tin : TemplateInput)
    (seed : Int) (kwargs : Assoc String) (np nc : Int) (t1 t2 : Nat) (g1 g2 : Rand)
    (h : 1 ≤ seed) :
    generate_prompt fuel tin (some seed) kwargs np nc t1 g1 =
    generate_prompt fuel tin (some seed) kwargs np nc t2 g2 := by
  simp only [generate_prompt]
  cases ht : ensure_template_dict tin with
  | error e => rfl
  | ok t =>
    simp only [Bind.bind, Except.bind]
    cases hef : extractFollowLists (if nc < 0 then 0 else if nc > 10 then 10 else nc)
        kwargs with
    | error e => rfl
    | ok p =>
      obtain ⟨kw, il⟩ := p
      simp only [Bind.bind, Except.bind]
      obtain ⟨k, hk⟩ :
          ∃ k, (if np < 1 then 1 else if np > 1000 then 1000 else np).toNat = k + 1 := by
        refine ⟨(if np < 1 then 1 else if np > 1000 then 1000 else np).toNat - 1, ?_⟩
        split_ifs <;> omega
      rw [hk]
      rw [genPromptLoop_seed_pos fuel t seed _ il h _ _ _ _ _ t1 t2]

/-- C5 witness: the amended determinism theorem applied at a concrete
template and seed 42 under two different time-oracle values and stream
states. -/
theorem c5_determinism_witness :
    generate_prompt 20 (.dict ⟨"Hello World", []⟩) (some 42) [] 1 0 1000 (mkRand 7) =
    generate_prompt 20 (.dict ⟨"Hello World", []⟩) (some 42) [] 1 0 5555 (mkRand 99) :=
  c5_deterministic_for_positive_seed 20 (.dict ⟨"Hello World", []⟩) 42 [] 1 0 1000 5555
    (mkRand 7) (mkRand 99) (by norm_num)

/-! ## C10 -/

/-- C10: escaping then unescaping is not the identity. The escape table
maps `&` last, so the `&` introduced by an earlier escape ("|" becomes
"&pipe;") is escaped again into "&amp;pipe;"; unescaping restores only the
`&`, leaving "&pipe;". End to end, a caller-supplied argument value "a|b"
reaches the final output as "a&pipe;b": the escape sequence leaks instead
of the pipe being restored exactly. -/
theorem c10_escape_unescape_not_identity :
    unescape_special_characters (escape_special_characters "|") = "&pipe;" ∧
    unescape_special_characters (escape_special_characters "|") ≠ "|" ∧
    generate_prompt 20 (.dict ⟨"\x7bmeta_x\x7d", []⟩) (some 42) [("x", "a|b")] 1 0 1000
        (mkRand 7) =
      .ok (.one ⟨"a&pipe;b", 42, []⟩) := by
  decide

end InfiniPrompt
